import Mathlib

/-!
Verification of the distributed-training backends (`DDPBackend`,
`DDP2Backend`) of `pytorch_lightning/accelerators/ddp_backend.py` and
`pytorch_lightning/accelerators/ddp2_backend.py`.

The Python code is shallowly embedded: environment access becomes an
explicit map `String → Option String`, mutation of trainer fields becomes
record update, side effects on the multiprocessing queue and the
checkpoint store become an explicit event trace, and Python exceptions
become `Except` errors.  External collaborator hooks of the framework
layer (`init_ddp_connection`, optimizer construction, `configure_ddp`,
the actual train/test loop, ...) do not influence any property treated
here; the opaque result payload returned by the loop is the abstract
value `PyVal.resultsVal`.
-/

/-- Shallow model of `os.environ`: a total lookup from variable names to
optional values. -/
def EnvMap : Type := String → Option String

/-- `os.environ[k] = v`. -/
def envSet (e : EnvMap) (k v : String) : EnvMap :=
  fun q => if q = k then Option.some v else e q

/-- `os.environ.get(k, d)`. -/
def envGetD (e : EnvMap) (k d : String) : String :=
  (e k).getD d

/-- An environment with no variables set. -/
def emptyEnv : EnvMap := fun _ => Option.none

/-- `str.split(',')` on the character list, accumulator-style:
Python semantics, so the empty string yields `[""]` and a trailing comma
yields a trailing `""` field. -/
def splitCommaAux : List Char → List Char → List String
  | [], acc => [String.mk acc.reverse]
  | ',' :: rest, acc => String.mk acc.reverse :: splitCommaAux rest []
  | c :: rest, acc => splitCommaAux rest (c :: acc)

/-- Model of Python `s.split(',')`. -/
def pySplitComma (s : String) : List String :=
  splitCommaAux s.data []

/-- `s.strip()` on the character list (ASCII whitespace, which is what
Python `int()` tolerates around a numeric literal). -/
def pyStrip (cs : List Char) : List Char :=
  ((cs.dropWhile Char.isWhitespace).reverse.dropWhile Char.isWhitespace).reverse

/-- Digit run for `pyInt?` after the first digit has been consumed:
further digits, optionally preceded by a single underscore that must sit
between two digits (Python's digit-group separator); anything else is a
`ValueError`. -/
def pyDigitsCore : List Char → Nat → Option Nat
  | [], acc => Option.some acc
  | '_' :: c :: rest, acc =>
      if c.isDigit then pyDigitsCore rest (acc * 10 + (c.toNat - 48)) else Option.none
  | c :: rest, acc =>
      if c.isDigit then pyDigitsCore rest (acc * 10 + (c.toNat - 48)) else Option.none

/-- Digit-sequence value for `pyInt?`: a leading decimal digit followed
by digits with single internal underscores; `none` (a `ValueError`)
otherwise, including for an empty list, a leading or trailing
underscore, or a doubled underscore. -/
def pyDigits? (cs : List Char) : Option Nat :=
  match cs with
  | [] => Option.none
  | c :: rest =>
      if c.isDigit then pyDigitsCore rest (c.toNat - 48) else Option.none

/-- Model of Python `int(s)` on strings: surrounding whitespace is
stripped, then an optional sign directly followed by decimal digits
(single underscores allowed between digits) parses; anything else raises
`ValueError` (modelled as `none`).  So `int(' 5 ') = 5` and
`int('1_2') = 12`, while `'abc'`, `''`, `'_1'`, `'1_'`, `'1__2'` and
`'- 5'` fail, matching CPython on ASCII input. -/
def pyInt? (s : String) : Option Int :=
  match pyStrip s.data with
  | '-' :: rest => (pyDigits? rest).map (fun n => -(n : Int))
  | '+' :: rest => (pyDigits? rest).map (fun n => (n : Int))
  | cs => (pyDigits? cs).map (fun n => (n : Int))

/-- Model of Python `s.lower()` (ASCII case folding, which covers every
mode string compared by the code). -/
def pyToLower (s : String) : String :=
  String.mk (s.data.map Char.toLower)

/-- The Python exceptions raised by the embedded code.
`misconfiguration` is pytorch-lightning's `MisconfigurationException`
(the "ConfigurationError" of the spec); the other constructors are
built-in Python exceptions. -/
inductive PyError where
  | keyError (k : String)
  | valueError
  | indexError
  | assertionError
  | reentrantSpawn
  | misconfiguration (m : String)
deriving DecidableEq, Repr

/-- Values that can travel on the multiprocessing queue: Python `None`,
a string (checkpoint path), or the opaque result payload returned by
`train_or_test()`. -/
inductive PyVal where
  | none : PyVal
  | str : String → PyVal
  | resultsVal : PyVal
deriving DecidableEq, Repr

/-- Observable side effects of `transfer_distrib_spawn_state_on_fit_end`,
in execution order: `put v` is `mp_queue.put(v)`, `save p` is
`atomic_save(model.state_dict(), p)`. -/
inductive Event where
  | put : PyVal → Event
  | save : String → Event
deriving DecidableEq, Repr

/-- The trainer fields read or written by the two backends.
`checkpoint_callback = none` models `trainer.checkpoint_callback is None`;
`some b` models a callback whose `best_model_path` is `b` (itself
optional, matching the code's `is not None` check).
`cuda_visible_devices` is `os.environ.get('CUDA_VISIBLE_DEVICES')` at
device-binding time. -/
structure Trainer where
  node_rank : Nat
  num_processes : Nat
  num_nodes : Nat
  local_rank : Nat
  global_rank : Nat
  world_size : Nat
  distributed_backend : String
  testing : Bool
  checkpoint_callback : Option (Option String)
  on_gpu : Bool
  cuda_visible_devices : Option String
  root_gpu : Option Int
deriving DecidableEq, Repr

/-- `best_model_path = None if callback is None else callback.best_model_path`
(ddp_backend.py lines 298-300). -/
def bestModelPathOf (t : Trainer) : Option String :=
  match t.checkpoint_callback with
  | Option.none => Option.none
  | Option.some b => b

/-- The backend family checked at ddp_backend.py line 294. -/
def spawnFamily : List String := ["ddp_spawn", "ddp_cpu", "tpu"]

/-- `re.sub('.ckpt', '.tmp_end.ckpt', s)` on the character list: the
regex pattern is one arbitrary character followed by `ckpt`; matches are
found leftmost, non-overlapping, and each is replaced by the literal
`.tmp_end.ckpt`. -/
def reSubCkptAux : List Char → List Char
  | a :: 'c' :: 'k' :: 'p' :: 't' :: rest =>
      match a with
      | _ => '.' :: 't' :: 'm' :: 'p' :: '_' :: 'e' :: 'n' :: 'd' :: '.' :: 'c' :: 'k' :: 'p' :: 't' :: reSubCkptAux rest
  | a :: rest => a :: reSubCkptAux rest
  | [] => []

/-- `re.sub('.ckpt', '.tmp_end.ckpt', s)` (ddp_backend.py line 311). -/
def pyReSubCkpt (s : String) : String :=
  String.mk (reSubCkptAux s.data)

/-- Embedding of `transfer_distrib_spawn_state_on_fit_end`
(ddp_backend.py lines 293-313; ddp2_backend.py lines 214-234 are
character-for-character identical).  Returns the trace of queue writes
and checkpoint saves, in order; the early `return` for a backend outside
the spawn family becomes the outer `else []`. -/
def transfer_distrib_spawn_state_on_fit_end (t : Trainer) (hasQueue : Bool) : List Event :=
  if pyToLower t.distributed_backend ∈ spawnFamily then
    let best_model_path := bestModelPathOf t
    if t.global_rank = 0 ∧ hasQueue = true then
      [Event.put (match best_model_path with
                  | Option.none => PyVal.none
                  | Option.some bp => PyVal.str bp),
       Event.put PyVal.resultsVal] ++
      (match best_model_path with
       | Option.some bp =>
         if t.testing = false ∧ bp.length > 0 then
           [Event.save (pyReSubCkpt bp), Event.put (PyVal.str (pyReSubCkpt bp))]
         else [Event.put PyVal.none]
       | Option.none => [Event.put PyVal.none])
    else []
  else []

/-- The claim's description of the last-weights path: none in testing
mode or when no best path exists, otherwise the best path with its
extension pattern substituted.  Stated from the spec's words, for
comparison with the code's trace. -/
def lastWeightsPathSpec (testing : Bool) (best : Option String) : Option String :=
  match best with
  | Option.none => Option.none
  | Option.some bp =>
    if testing = false ∧ bp.length > 0 then Option.some (pyReSubCkpt bp) else Option.none

/-- GPU binding, ddp_backend.py lines 202-211 (identically
ddp2_backend.py lines 121-130): `gpu_idx = process_idx`, but a master
process instead indexes the `CUDA_VISIBLE_DEVICES` list at
`trainer.local_rank` and parses the entry as an int.  The three Python
failure modes (missing variable, index out of range, non-numeric entry)
become errors. -/
def bindRootGpu (is_master : Bool) (cvd : Option String) (local_rank process_idx : Nat) :
    Except PyError Int :=
  if is_master then
    match cvd with
    | Option.none => Except.error (PyError.keyError "CUDA_VISIBLE_DEVICES")
    | Option.some s =>
      let available_gpus := pySplitComma s
      match available_gpus[local_rank]? with
      | Option.none => Except.error PyError.indexError
      | Option.some g =>
        match pyInt? g with
        | Option.none => Except.error PyError.valueError
        | Option.some n => Except.ok n
  else Except.ok (Int.ofNat process_idx)

/-- The `if self.trainer.on_gpu:` block of `ddp_train` (ddp_backend.py
lines 202-215, ddp2_backend.py lines 121-134): when on GPU, bind the
resolved device as `trainer.root_gpu`; otherwise leave the trainer
unchanged. -/
def applyGpuBinding (is_master : Bool) (process_idx : Nat) (t : Trainer) :
    Except PyError Trainer :=
  if t.on_gpu then
    match bindRootGpu is_master t.cuda_visible_devices t.local_rank process_idx with
    | Except.error e => Except.error e
    | Except.ok idx => Except.ok { t with root_gpu := Option.some idx }
  else Except.ok t

/-- Embedding of `DDPBackend.ddp_train` (ddp_backend.py lines 147-258):
rank bookkeeping (lines 162, 169-171), GPU binding (lines 202-215), the
fit-end transfer (line 252) and the conditional result return (lines
257-258).  The collaborator hooks in between (connection setup,
optimizers, AMP, `configure_ddp`, the loop itself) mutate none of the
fields treated here; the loop's payload is the opaque
`PyVal.resultsVal`. -/
def DDPBackend.ddp_train (t : Trainer) (process_idx₀ : Nat) (hasQueue : Bool)
    (is_master : Bool) (proc_offset : Nat) :
    Except PyError (Trainer × List Event × Option PyVal) :=
  match applyGpuBinding is_master (process_idx₀ + proc_offset) { t with
    local_rank := process_idx₀ + proc_offset,
    global_rank := t.node_rank * t.num_processes + (process_idx₀ + proc_offset),
    world_size := t.num_nodes * t.num_processes } with
  | Except.error e => Except.error e
  | Except.ok t₂ =>
    Except.ok (t₂,
      transfer_distrib_spawn_state_on_fit_end t₂ hasQueue,
      if t₂.global_rank = 0 ∧ t₂.distributed_backend ∉ (["ddp_spawn", "ddp_cpu"] : List String)
        then Option.some PyVal.resultsVal else Option.none)

/-- Embedding of `DDP2Backend.ddp_train` (ddp2_backend.py lines 71-171):
identical to the DDP variant except that rank bookkeeping is at node
granularity (lines 92-94) and the function always falls off the end,
returning Python `None`. -/
def DDP2Backend.ddp_train (t : Trainer) (process_idx₀ : Nat) (hasQueue : Bool)
    (is_master : Bool) (proc_offset : Nat) :
    Except PyError (Trainer × List Event × Option PyVal) :=
  match applyGpuBinding is_master (process_idx₀ + proc_offset) { t with
    local_rank := t.node_rank,
    global_rank := t.node_rank,
    world_size := t.num_nodes } with
  | Except.error e => Except.error e
  | Except.ok t₂ =>
    Except.ok (t₂, transfer_distrib_spawn_state_on_fit_end t₂ hasQueue, Option.none)

/-- `DDPBackend.train` (ddp_backend.py lines 138-145): in `'ddp'` mode
call `ddp_train` with `is_master=True` and return its result; in any
other mode (`'slurm_ddp'`, `'torchelastic_ddp'`) call it with the
defaults and return `None`.  `mp_queue=None` becomes `hasQueue = false`. -/
def DDPBackend.train (mode : String) (t : Trainer) (task_idx : Nat) :
    Except PyError (Trainer × List Event × Option PyVal) :=
  if mode = "ddp" then
    DDPBackend.ddp_train t task_idx false true 0
  else
    Except.map (fun r => (r.1, r.2.1, Option.none)) (DDPBackend.ddp_train t task_idx false false 0)

/-- `DDP2Backend.train` (ddp2_backend.py lines 67-69): calls `ddp_train`
and implicitly returns Python `None`, discarding any payload. -/
def DDP2Backend.train (t : Trainer) (task_idx : Nat) :
    Except PyError (Trainer × List Event × Option PyVal) :=
  Except.map (fun r => (r.1, r.2.1, Option.none)) (DDP2Backend.ddp_train t task_idx false false 0)

/-- `early_stopping_should_stop` (ddp_backend.py lines 286-291,
ddp2_backend.py lines 207-212): each process contributes
`int(trainer.should_stop)`; `dist.all_reduce(_, SUM)` makes the local
tensor the sum of every process's flag, modelled by summing the list of
per-process flags; the vote passes when the sum equals `world_size`. -/
def early_stopping_should_stop (flags : List Nat) (world_size : Nat) : Bool :=
  flags.sum == world_size

/-- `DDPBackend.__slurm_setup` (ddp_backend.py lines 67-68):
`int(os.environ['SLURM_LOCALID'])`; a missing variable raises `KeyError`,
a non-numeric one `ValueError`. -/
def DDPBackend.slurm_setup (env : EnvMap) : Except PyError Int :=
  match env "SLURM_LOCALID" with
  | Option.none => Except.error (PyError.keyError "SLURM_LOCALID")
  | Option.some s =>
    match pyInt? s with
    | Option.none => Except.error PyError.valueError
    | Option.some n => Except.ok n

/-- `DDPBackend.__torchelastic_setup` (ddp_backend.py lines 70-71):
`int(os.environ['LOCAL_RANK'])`, same failure modes as the SLURM case. -/
def DDPBackend.torchelastic_setup (env : EnvMap) : Except PyError Int :=
  match env "LOCAL_RANK" with
  | Option.none => Except.error (PyError.keyError "LOCAL_RANK")
  | Option.some s =>
    match pyInt? s with
    | Option.none => Except.error PyError.valueError
    | Option.some n => Except.ok n

/-- The remediation message of ddp2_backend.py line 64. -/
def ddp2Msg : String :=
  "ddp2 only works in SLURM or via torchelastic with the WORLD_SIZE, LOCAL_RANK, GROUP_RANK flags"

/-- `DDP2Backend._resolve_task_idx` (ddp2_backend.py lines 56-65): the
SLURM branch reads `SLURM_LOCALID` outside any handler, so its failures
propagate raw; the torchelastic branch wraps `int(os.environ['LOCAL_RANK'])`
in `try/except` and converts any failure into
`MisconfigurationException(ddp2Msg)`. -/
def DDP2Backend.resolve_task_idx (is_slurm_managing_tasks : Bool) (env : EnvMap) :
    Except PyError Int :=
  if is_slurm_managing_tasks then
    match env "SLURM_LOCALID" with
    | Option.none => Except.error (PyError.keyError "SLURM_LOCALID")
    | Option.some s =>
      match pyInt? s with
      | Option.none => Except.error PyError.valueError
      | Option.some n => Except.ok n
  else
    match env "LOCAL_RANK" with
    | Option.none => Except.error (PyError.misconfiguration ddp2Msg)
    | Option.some s =>
      match pyInt? s with
      | Option.none => Except.error (PyError.misconfiguration ddp2Msg)
      | Option.some n => Except.ok n

/-- One spawned child (ddp_backend.py lines 119-129): the command line
handed to `subprocess.Popen` and the environment snapshot it receives. -/
structure ProcRecord where
  command : List String
  env : EnvMap

/-- The state touched by `DDPBackend.__ddp_script_mode_setup`:
`trainer.global_rank`, the backend's `_has_spawned_children` guard and
`task_idx`, `trainer.num_processes` / `num_nodes`, `os.environ`,
`sys.argv`, `sys.executable` and `trainer.interactive_ddp_procs`. -/
structure ScriptState where
  global_rank : Nat
  has_spawned_children : Bool
  num_processes : Nat
  num_nodes : Nat
  env : EnvMap
  argv : List String
  executable : String
  procs : List ProcRecord
  task_idx : Option Nat

/-- Node-rank fixing, ddp_backend.py lines 82-84: start from `'0'`,
replace by `NODE_RANK` if set, then replace by `GROUP_RANK` if set (so a
set `GROUP_RANK` wins over a set `NODE_RANK`). -/
def scriptNodeRank (env : EnvMap) : String :=
  let node_rank := "0"
  let node_rank := envGetD env "NODE_RANK" node_rank
  let node_rank := envGetD env "GROUP_RANK" node_rank
  node_rank

/-- ddp_backend.py lines 106-108: read `CUDA_VISIBLE_DEVICES` (default
`''`) and append a comma when the string is a single character. -/
def scriptGpuIds (env : EnvMap) : String :=
  let gpu_ids := envGetD env "CUDA_VISIBLE_DEVICES" ""
  if gpu_ids.length = 1 then gpu_ids ++ "," else gpu_ids

/-- Embedding of `DDPBackend.__ddp_script_mode_setup` (ddp_backend.py
lines 73-136).  `abspath` abstracts `os.path.abspath` (the hydra variant
and its fallback resolve through the same call shape), `freePort`
abstracts `find_free_network_port()`.  The randomized launch stagger
(lines 131-134) is a pure delay and is not modelled.  An empty `argv`
would raise `IndexError` at `command[0]`; the assert at line 74 and the
re-entry guard at lines 276-281 come first. -/
def ddp_script_mode_setup (abspath : String → String) (freePort : String)
    (s : ScriptState) : Except PyError ScriptState :=
  if s.global_rank ≠ 0 then Except.error PyError.assertionError
  else if s.has_spawned_children then Except.error PyError.reentrantSpawn
  else
    match s.argv with
    | [] => Except.error PyError.indexError
    | a :: rest =>
      let env := s.env
      let env := envSet env "MASTER_ADDR" (envGetD env "MASTER_ADDR" "127.0.0.1")
      let env := envSet env "MASTER_PORT" (envGetD env "MASTER_PORT" freePort)
      let env := envSet env "NODE_RANK" (scriptNodeRank env)
      let env := envSet env "LOCAL_RANK" "0"
      let command := s.executable :: abspath a :: rest
      let gpu_ids := scriptGpuIds env
      let num_gpus := max 1 (pySplitComma gpu_ids).length
      let env := envSet env "PL_TRAINER_GPUS" gpu_ids
      let env := envSet env "WORLD_SIZE" (toString (num_gpus * s.num_nodes))
      let procs := (List.range' 1 (s.num_processes - 1)).map
        (fun local_rank =>
          { command := command, env := envSet env "LOCAL_RANK" (toString local_rank) })
      Except.ok { s with
        has_spawned_children := true,
        env := env,
        procs := procs,
        task_idx := Option.some 0 }

/-- The claim's reading of the node-rank preference (operator-supplied
`NODE_RANK` first, then `GROUP_RANK`, default `'0'`).  Stated from the
spec's words, for comparison with `scriptNodeRank`. -/
def nodeRankSpec (env : EnvMap) : String :=
  (env "NODE_RANK").getD ((env "GROUP_RANK").getD "0")

/-- The claim's count of visible accelerator devices: zero when the
variable is absent or empty, otherwise the number of comma-separated
entries.  Stated from the spec's words, for comparison with the exported
`WORLD_SIZE`. -/
def visibleDeviceCount (cvd : Option String) : Nat :=
  match cvd with
  | Option.none => 0
  | Option.some s => if s = "" then 0 else (pySplitComma s).length

/-- Concrete path resolver for witnesses. -/
def absEx : String → String := fun p => "/abs/" ++ p

/-- Script state with a single-character `CUDA_VISIBLE_DEVICES`
(one visible device), used against claim C4. -/
def s4 : ScriptState :=
  { global_rank := 0, has_spawned_children := false, num_processes := 1,
    num_nodes := 1, env := envSet emptyEnv "CUDA_VISIBLE_DEVICES" "3",
    argv := ["train.py"], executable := "python", procs := [], task_idx := Option.none }

/-- Script state with both `NODE_RANK` and `GROUP_RANK` set (to
different values), used against claim C5. -/
def s5 : ScriptState :=
  { global_rank := 0, has_spawned_children := false, num_processes := 1,
    num_nodes := 1,
    env := envSet (envSet emptyEnv "NODE_RANK" "1") "GROUP_RANK" "2",
    argv := ["train.py"], executable := "python", procs := [], task_idx := Option.none }

/-- Script state requesting three processes, used for the spawn
witnesses of claims C7 and C8. -/
def s8 : ScriptState :=
  { global_rank := 0, has_spawned_children := false, num_processes := 3,
    num_nodes := 1, env := emptyEnv,
    argv := ["train.py", "--lr"], executable := "python", procs := [], task_idx := Option.none }

/-- Trainer used by the C1 witness (no GPU, so `ddp_train` succeeds). -/
def t1ex : Trainer :=
  { node_rank := 1, num_processes := 4, num_nodes := 2, local_rank := 0,
    global_rank := 0, world_size := 0, distributed_backend := "ddp",
    testing := false, checkpoint_callback := Option.none,
    on_gpu := false, cuda_visible_devices := Option.none, root_gpu := Option.none }

/-- Trainer used by the C9 witness: on GPU, with the restricted visible
list `["2","5"]` of the spec's example. -/
def t9 : Trainer :=
  { node_rank := 0, num_processes := 2, num_nodes := 1, local_rank := 0,
    global_rank := 0, world_size := 0, distributed_backend := "ddp",
    testing := false, checkpoint_callback := Option.none,
    on_gpu := true, cuda_visible_devices := Option.some "2,5", root_gpu := Option.none }

/-- Trainer used by the C2 witness: spawn mode, rank 0, a best
checkpoint path, not testing. -/
def t2ex : Trainer :=
  { node_rank := 0, num_processes := 1, num_nodes := 1, local_rank := 0,
    global_rank := 0, world_size := 1, distributed_backend := "ddp_spawn",
    testing := false, checkpoint_callback := Option.some (Option.some "epoch=2.ckpt"),
    on_gpu := false, cuda_visible_devices := Option.none, root_gpu := Option.none }

/-- Trainer used by the C10 witness: plain 'ddp' backend on node 0, so
rank 0 receives the payload. -/
def t10 : Trainer :=
  { node_rank := 0, num_processes := 4, num_nodes := 2, local_rank := 0,
    global_rank := 0, world_size := 0, distributed_backend := "ddp",
    testing := false, checkpoint_callback := Option.none,
    on_gpu := false, cuda_visible_devices := Option.none, root_gpu := Option.none }

/-- Environment used by the C6 witness: `LOCAL_RANK` set to a
non-numeric string. -/
def envAbc : EnvMap := envSet emptyEnv "LOCAL_RANK" "abc"

/-- `Except.error (misconfiguration _)`? -- distinguishes
pytorch-lightning's configuration error from the built-in exceptions. -/
def isMisconfigurationError : Except PyError Int → Bool
  | Except.error (PyError.misconfiguration _) => true
  | _ => false

/-! Helper lemmas (shared; not tied to a single claim). -/

theorem envSet_self (e : EnvMap) (k v : String) : envSet e k v k = Option.some v := by
  simp [envSet]

theorem envSet_other (e : EnvMap) (k v q : String) (h : q ≠ k) : envSet e k v q = e q := by
  simp [envSet, h]

theorem applyGpuBinding_cases (m : Bool) (p : Nat) (t t' : Trainer)
    (h : applyGpuBinding m p t = Except.ok t') :
    t' = t ∨ ∃ idx, t' = { t with root_gpu := Option.some idx } := by
  unfold applyGpuBinding at h
  split at h
  · split at h
    · exact absurd h (by simp)
    · exact Or.inr ⟨_, (Except.ok.inj h).symm⟩
  · exact Or.inl (Except.ok.inj h).symm

theorem applyGpuBinding_preserves (m : Bool) (p : Nat) (t t' : Trainer)
    (h : applyGpuBinding m p t = Except.ok t') :
    t'.local_rank = t.local_rank ∧ t'.global_rank = t.global_rank ∧
    t'.world_size = t.world_size ∧ t'.node_rank = t.node_rank ∧
    t'.distributed_backend = t.distributed_backend := by
  rcases applyGpuBinding_cases m p t t' h with rfl | ⟨idx, rfl⟩ <;> simp

theorem sum_le_length_of_le_one (l : List Nat) (h : ∀ f ∈ l, f ≤ 1) :
    l.sum ≤ l.length := by
  induction l with
  | nil => simp
  | cons a tl ih =>
    have ha := h a (List.mem_cons_self a tl)
    have := ih (fun f hf => h f (List.mem_cons_of_mem a hf))
    simp only [List.sum_cons, List.length_cons]
    omega

theorem sum_eq_length_iff_all_one (l : List Nat) (h : ∀ f ∈ l, f ≤ 1) :
    l.sum = l.length ↔ ∀ f ∈ l, f = 1 := by
  induction l with
  | nil => simp
  | cons a tl ih =>
    have ha := h a (List.mem_cons_self a tl)
    have htl : ∀ f ∈ tl, f ≤ 1 := fun f hf => h f (List.mem_cons_of_mem a hf)
    have hs := sum_le_length_of_le_one tl htl
    have iht := ih htl
    simp only [List.sum_cons, List.length_cons, List.forall_mem_cons]
    constructor
    · intro he
      have ha1 : a = 1 := by omega
      have hts : tl.sum = tl.length := by omega
      exact ⟨ha1, iht.mp hts⟩
    · rintro ⟨rfl, hall⟩
      have := iht.mpr hall
      omega

/-! Claim theorems. -/

/-- Claim C1: for every valid trainer state, `DDPBackend.ddp_train` sets
`global_rank = node_rank * processes_per_node + local_rank` and
`world_size = num_nodes * processes_per_node`, while
`DDP2Backend.ddp_train` sets `global_rank = node_rank` and
`world_size = num_nodes`. -/
theorem C1_rank_formulas :
    (∀ t pid hq m off t' evs r,
      DDPBackend.ddp_train t pid hq m off = Except.ok (t', evs, r) →
      t'.local_rank = pid + off ∧
      t'.global_rank = t.node_rank * t.num_processes + t'.local_rank ∧
      t'.world_size = t.num_nodes * t.num_processes)
    ∧ (∀ t pid hq m off t' evs r,
      DDP2Backend.ddp_train t pid hq m off = Except.ok (t', evs, r) →
      t'.global_rank = t.node_rank ∧ t'.world_size = t.num_nodes) := by
  constructor
  · intro t pid hq m off t' evs r h
    unfold DDPBackend.ddp_train at h
    split at h
    · exact absurd h (by simp)
    · rename_i t₂ heq
      obtain ⟨h1, h2, h3⟩ := (Prod.mk.injEq ..).mp (Except.ok.inj h)
      obtain ⟨hl, hg, hw, _, _⟩ := applyGpuBinding_preserves _ _ _ _ heq
      subst h1
      simp [hl, hg, hw]
  · intro t pid hq m off t' evs r h
    unfold DDP2Backend.ddp_train at h
    split at h
    · exact absurd h (by simp)
    · rename_i t₂ heq
      obtain ⟨h1, h2, h3⟩ := (Prod.mk.injEq ..).mp (Except.ok.inj h)
      obtain ⟨hl, hg, hw, _, _⟩ := applyGpuBinding_preserves _ _ _ _ heq
      subst h1
      simp [hl, hg, hw]

/-- Witness for C1 at node_rank 1, 4 processes per node, 2 nodes,
local rank 3: global rank 7 and world size 8 in per-device mode; global
rank 1 and world size 2 in whole-node mode. -/
theorem C1_rank_formulas_witness :
    (∃ t' evs r, DDPBackend.ddp_train t1ex 3 false false 0 = Except.ok (t', evs, r) ∧
      t'.local_rank = 3 ∧ t'.global_rank = 7 ∧ t'.world_size = 8)
    ∧ (∃ t' evs r, DDP2Backend.ddp_train t1ex 3 false false 0 = Except.ok (t', evs, r) ∧
      t'.global_rank = 1 ∧ t'.world_size = 2) := by
  constructor
  · refine ⟨_, _, _, rfl, ?_, ?_, ?_⟩
    · exact (C1_rank_formulas.1 t1ex 3 false false 0 _ _ _ rfl).1
    · exact ((C1_rank_formulas.1 t1ex 3 false false 0 _ _ _ rfl).2.1).trans (by decide)
    · exact ((C1_rank_formulas.1 t1ex 3 false false 0 _ _ _ rfl).2.2).trans (by decide)
  · refine ⟨_, _, _, rfl, ?_, ?_⟩
    · exact (C1_rank_formulas.2 t1ex 3 false false 0 _ _ _ rfl).1
    · exact (C1_rank_formulas.2 t1ex 3 false false 0 _ _ _ rfl).2

/-- Claim C3: with one 0/1 flag per process and as many flags as
processes, the early-stop vote passes exactly when the collective sum of
the flags equals `world_size`, i.e. only when every process's flag is 1;
any single 0 yields false. -/
theorem C3_early_stop_unanimous (flags : List Nat) (world_size : Nat)
    (hlen : flags.length = world_size) (hbit : ∀ f ∈ flags, f ≤ 1) :
    early_stopping_should_stop flags world_size = true ↔ ∀ f ∈ flags, f = 1 := by
  unfold early_stopping_should_stop
  rw [beq_iff_eq, ← hlen]
  exact sum_eq_length_iff_all_one flags hbit

/-- Witness for C3 at world_size 3: flags [1,1,1] vote true, flags
[1,0,1] vote false. -/
theorem C3_early_stop_unanimous_witness :
    early_stopping_should_stop [1, 1, 1] 3 = true ∧
    early_stopping_should_stop [1, 0, 1] 3 = false := by
  constructor
  · exact (C3_early_stop_unanimous [1, 1, 1] 3 rfl (by decide)).mpr (by decide)
  · have h := C3_early_stop_unanimous [1, 0, 1] 3 rfl (by decide)
    have hne : ¬ (early_stopping_should_stop [1, 0, 1] 3 = true) :=
      fun hx => (by decide : ¬ ∀ f ∈ [1, 0, 1], f = 1) (h.mp hx)
    exact Bool.eq_false_iff.mpr hne

/-- Claim C2: `transfer_distrib_spawn_state_on_fit_end` places messages
on the channel iff the (lower-cased) backend mode is in the
spawn/CPU/tpu family, the global rank is 0 and a queue was supplied;
when it does, it places exactly three messages in fixed order (best
checkpoint path or none, result payload, last-weights path), where the
last-weights path is none in testing mode or without a best path and is
otherwise the extension-substituted best path, atomically saved before
the path is enqueued; in every other case the trace is empty. -/
theorem C2_fit_end_transfer (t : Trainer) (hq : Bool) :
    (transfer_distrib_spawn_state_on_fit_end t hq ≠ [] ↔
      (pyToLower t.distributed_backend ∈ spawnFamily ∧ t.global_rank = 0 ∧ hq = true))
    ∧ ((pyToLower t.distributed_backend ∈ spawnFamily ∧ t.global_rank = 0 ∧ hq = true) →
      transfer_distrib_spawn_state_on_fit_end t hq =
        [Event.put (match bestModelPathOf t with
                    | Option.none => PyVal.none
                    | Option.some bp => PyVal.str bp),
         Event.put PyVal.resultsVal] ++
        (match lastWeightsPathSpec t.testing (bestModelPathOf t) with
         | Option.some lp => [Event.save lp, Event.put (PyVal.str lp)]
         | Option.none => [Event.put PyVal.none])) := by
  unfold transfer_distrib_spawn_state_on_fit_end lastWeightsPathSpec
  by_cases hf : pyToLower t.distributed_backend ∈ spawnFamily
  · by_cases hg : t.global_rank = 0 ∧ hq = true
    · simp only [hf, hg, if_true, if_pos]
      constructor
      · rcases hb : bestModelPathOf t with _ | bp
        · simp [hf, hg]
        · by_cases ht : t.testing = false ∧ bp.length > 0 <;> simp [hf, hg, ht]
      · intro _
        rcases hb : bestModelPathOf t with _ | bp
        · rfl
        · by_cases ht : t.testing = false ∧ bp.length > 0 <;> simp [ht]
    · simp [hf, hg]
  · simp [hf]

/-- Witness for C2: spawn mode, rank 0, best path "epoch=2.ckpt", not
testing, queue present -- the trace is best path, result payload, an
atomic save of "epoch=2.tmp_end.ckpt", then that path. -/
theorem C2_fit_end_transfer_witness :
    transfer_distrib_spawn_state_on_fit_end t2ex true =
      [Event.put (PyVal.str "epoch=2.ckpt"), Event.put PyVal.resultsVal,
       Event.save "epoch=2.tmp_end.ckpt", Event.put (PyVal.str "epoch=2.tmp_end.ckpt")] := by
  have h := (C2_fit_end_transfer t2ex true).2 ⟨by decide, rfl, rfl⟩
  exact h.trans (by rfl)

/-- Claim C10: the result payload reaches the caller of `train()` only
in plain 'ddp' mode, and then exactly when the updated global rank is 0
and the backend is outside the spawn/CPU family; 'slurm_ddp' and
'torchelastic_ddp' return None from `DDPBackend.train`, and
`DDP2Backend.train` always discards the payload. -/
theorem C10_result_delivery :
    (∀ mode t task t' evs r, mode ≠ "ddp" →
      DDPBackend.train mode t task = Except.ok (t', evs, r) → r = Option.none)
    ∧ (∀ t task t' evs r,
      DDPBackend.train "ddp" t task = Except.ok (t', evs, r) →
      (r ≠ Option.none ↔
        (t'.global_rank = 0 ∧ t.distributed_backend ∉ (["ddp_spawn", "ddp_cpu"] : List String))))
    ∧ (∀ t task t' evs r,
      DDP2Backend.train t task = Except.ok (t', evs, r) → r = Option.none) := by
  refine ⟨?_, ?_, ?_⟩
  · intro mode t task t' evs r hmode h
    unfold DDPBackend.train at h
    rw [if_neg hmode] at h
    rcases hdt : DDPBackend.ddp_train t task false false 0 with e | v
    · rw [hdt] at h; exact absurd h (by simp [Except.map])
    · rw [hdt] at h
      simp [Except.map] at h
      exact h.2.2.symm
  · intro t task t' evs r h
    unfold DDPBackend.train at h
    rw [if_pos rfl] at h
    unfold DDPBackend.ddp_train at h
    split at h
    · exact absurd h (by simp)
    · rename_i t₂ heq
      simp only [Except.ok.injEq, Prod.mk.injEq] at h
      obtain ⟨h1, hevs, h3⟩ := h
      obtain ⟨_, _, _, _, hdb⟩ := applyGpuBinding_preserves _ _ _ _ heq
      subst h1
      subst h3
      have hdb' : t₂.distributed_backend = t.distributed_backend := by simpa using hdb
      rw [hdb']
      by_cases hc : (t₂.global_rank = 0 ∧
          t.distributed_backend ∉ (["ddp_spawn", "ddp_cpu"] : List String))
      · simp [hc]
      · simp [hc]
  · intro t task t' evs r h
    unfold DDP2Backend.train at h
    rcases hdt : DDP2Backend.ddp_train t task false false 0 with e | v
    · rw [hdt] at h; exact absurd h (by simp [Except.map])
    · rw [hdt] at h
      simp [Except.map] at h
      exact h.2.2.symm

/-- Witness for C10: with trainer `t1ex` (backend 'ddp'), 'slurm_ddp'
mode returns no payload; 'ddp' mode run from node rank 0 would deliver
one iff rank 0 -- here task 3 on node 1 gives rank 7, so no payload is
delivered and the iff is falsified on the left; DDP2 returns none. -/
theorem C10_result_delivery_witness :
    (∃ t' evs r, DDPBackend.train "slurm_ddp" t1ex 3 = Except.ok (t', evs, r) ∧
      r = Option.none)
    ∧ (∃ t' evs r, DDPBackend.train "ddp" t10 0 = Except.ok (t', evs, r) ∧
      r ≠ Option.none)
    ∧ (∃ t' evs r, DDP2Backend.train t1ex 3 = Except.ok (t', evs, r) ∧
      r = Option.none) := by
  refine ⟨⟨_, _, _, rfl, ?_⟩, ⟨_, _, _, rfl, ?_⟩, ⟨_, _, _, rfl, ?_⟩⟩
  · exact C10_result_delivery.1 "slurm_ddp" t1ex 3 _ _ _ (by decide) rfl
  · exact (C10_result_delivery.2.1 t10 0 _ _ _ rfl).mpr (by decide)
  · exact C10_result_delivery.2.2 t1ex 3 _ _ _ rfl

/-- Claim C9: in `ddp_train`, a master process resolves its physical
device by indexing the restricted visible-device list at position
`local_rank` (= the offset process index) and parsing the entry, while a
non-master process uses the raw process index directly; the same holds
in the whole-node backend, where the indexing position `local_rank` has
been set to `node_rank`. -/
theorem C9_gpu_resolution :
    (∀ t pid hq off cvd g n t' evs r,
      t.on_gpu = true → t.cuda_visible_devices = Option.some cvd →
      (pySplitComma cvd)[pid + off]? = Option.some g → pyInt? g = Option.some n →
      DDPBackend.ddp_train t pid hq true off = Except.ok (t', evs, r) →
      t'.root_gpu = Option.some n)
    ∧ (∀ t pid hq off t' evs r, t.on_gpu = true →
      DDPBackend.ddp_train t pid hq false off = Except.ok (t', evs, r) →
      t'.root_gpu = Option.some (Int.ofNat (pid + off)))
    ∧ (∀ t pid hq off cvd g n t' evs r,
      t.on_gpu = true → t.cuda_visible_devices = Option.some cvd →
      (pySplitComma cvd)[t.node_rank]? = Option.some g → pyInt? g = Option.some n →
      DDP2Backend.ddp_train t pid hq true off = Except.ok (t', evs, r) →
      t'.root_gpu = Option.some n)
    ∧ (∀ t pid hq off t' evs r, t.on_gpu = true →
      DDP2Backend.ddp_train t pid hq false off = Except.ok (t', evs, r) →
      t'.root_gpu = Option.some (Int.ofNat (pid + off))) := by
  refine ⟨?_, ?_, ?_, ?_⟩
  · intro t pid hq off cvd g n t' evs r hgpu hcvd hidx hint h
    unfold DDPBackend.ddp_train at h
    split at h
    · exact absurd h (by simp)
    · rename_i t₂ heq
      simp only [Except.ok.injEq, Prod.mk.injEq] at h
      obtain ⟨h1, -, -⟩ := h
      subst h1
      unfold applyGpuBinding bindRootGpu at heq
      simp only [hgpu, hcvd, if_true, hidx, hint] at heq
      simp only [Except.ok.injEq] at heq
      rw [← heq]
  · intro t pid hq off t' evs r hgpu h
    unfold DDPBackend.ddp_train at h
    split at h
    · exact absurd h (by simp)
    · rename_i t₂ heq
      simp only [Except.ok.injEq, Prod.mk.injEq] at h
      obtain ⟨h1, -, -⟩ := h
      subst h1
      unfold applyGpuBinding bindRootGpu at heq
      simp only [hgpu, if_true, if_false, Bool.false_eq_true] at heq
      simp only [Except.ok.injEq] at heq
      rw [← heq]
  · intro t pid hq off cvd g n t' evs r hgpu hcvd hidx hint h
    unfold DDP2Backend.ddp_train at h
    split at h
    · exact absurd h (by simp)
    · rename_i t₂ heq
      simp only [Except.ok.injEq, Prod.mk.injEq] at h
      obtain ⟨h1, -, -⟩ := h
      subst h1
      unfold applyGpuBinding bindRootGpu at heq
      simp only [hgpu, hcvd, if_true, hidx, hint] at heq
      simp only [Except.ok.injEq] at heq
      rw [← heq]
  · intro t pid hq off t' evs r hgpu h
    unfold DDP2Backend.ddp_train at h
    split at h
    · exact absurd h (by simp)
    · rename_i t₂ heq
      simp only [Except.ok.injEq, Prod.mk.injEq] at h
      obtain ⟨h1, -, -⟩ := h
      subst h1
      unfold applyGpuBinding bindRootGpu at heq
      simp only [hgpu, if_true, if_false, Bool.false_eq_true] at heq
      simp only [Except.ok.injEq] at heq
      rw [← heq]

/-- Witness for C9: visible list "2,5", local rank 1 -- the master
resolves physical device 5; a non-master resolves device 1; and the
whole-node variants behave accordingly (node rank 0 indexes entry "2"). -/
theorem C9_gpu_resolution_witness :
    (∃ t' evs r, DDPBackend.ddp_train t9 1 false true 0 = Except.ok (t', evs, r) ∧
      t'.root_gpu = Option.some 5)
    ∧ (∃ t' evs r, DDPBackend.ddp_train t9 1 false false 0 = Except.ok (t', evs, r) ∧
      t'.root_gpu = Option.some 1)
    ∧ (∃ t' evs r, DDP2Backend.ddp_train t9 1 false true 0 = Except.ok (t', evs, r) ∧
      t'.root_gpu = Option.some 2)
    ∧ (∃ t' evs r, DDP2Backend.ddp_train t9 1 false false 0 = Except.ok (t', evs, r) ∧
      t'.root_gpu = Option.some 1) := by
  refine ⟨⟨_, _, _, rfl, ?_⟩, ⟨_, _, _, rfl, ?_⟩, ⟨_, _, _, rfl, ?_⟩, ⟨_, _, _, rfl, ?_⟩⟩
  · exact C9_gpu_resolution.1 t9 1 false 0 "2,5" "5" 5 _ _ _ rfl rfl rfl (by decide) rfl
  · exact C9_gpu_resolution.2.1 t9 1 false 0 _ _ _ rfl rfl
  · exact C9_gpu_resolution.2.2.1 t9 1 false 0 "2,5" "2" 2 _ _ _ rfl rfl rfl (by decide) rfl
  · exact C9_gpu_resolution.2.2.2 t9 1 false 0 _ _ _ rfl rfl

/-- Claim C4 (failing evaluation): with `CUDA_VISIBLE_DEVICES='3'` (one
visible device) and one node, the script-mode setup exports
`WORLD_SIZE='2'`, while max(1, number of visible devices) x num_nodes
is 1 -- the comma appended to a single-character device list is counted
as an extra device. -/
theorem C4_world_size_failing_eval :
    ∃ s₁, ddp_script_mode_setup absEx "500" s4 = Except.ok s₁ ∧
      s₁.env "WORLD_SIZE" = Option.some "2" ∧
      max 1 (visibleDeviceCount (s4.env "CUDA_VISIBLE_DEVICES")) * s4.num_nodes = 1 ∧
      toString (max 1 (visibleDeviceCount (s4.env "CUDA_VISIBLE_DEVICES")) * s4.num_nodes) ≠
        "2" := by
  exact ⟨_, rfl, rfl, rfl, by decide⟩

/-- Claim C5 (counterexample): with `NODE_RANK='1'` and `GROUP_RANK='2'`
both set, the setup fixes `NODE_RANK` to `'2'`: the group rank wins,
not the operator-supplied node rank ('1') that the claim prefers. -/
theorem C5_node_rank_counterexample :
    ∃ s₁, ddp_script_mode_setup absEx "500" s5 = Except.ok s₁ ∧
      s₁.env "NODE_RANK" = Option.some "2" ∧
      nodeRankSpec s5.env = "1" ∧
      ("2" : String) ≠ "1" := by
  exact ⟨_, rfl, rfl, rfl, by decide⟩

/-- Claim C5 as amended: the script-mode setup fixes the node rank by
preferring the elastic-layer `GROUP_RANK`, then the operator-supplied
`NODE_RANK`, defaulting to '0' when neither is set, and always sets the
master's own `LOCAL_RANK` to '0'. -/
theorem C5_node_rank_amended (ap : String → String) (fp : String) (s s₁ : ScriptState)
    (h : ddp_script_mode_setup ap fp s = Except.ok s₁) :
    s₁.env "NODE_RANK" =
      Option.some ((s.env "GROUP_RANK").getD ((s.env "NODE_RANK").getD "0")) ∧
    s₁.env "LOCAL_RANK" = Option.some "0" := by
  unfold ddp_script_mode_setup at h
  split at h
  · exact absurd h (by simp)
  · split at h
    · exact absurd h (by simp)
    · split at h
      · exact absurd h (by simp)
      · simp only [Except.ok.injEq] at h
        subst h
        constructor
        · simp [envSet, envGetD, scriptNodeRank]
        · simp [envSet]

/-- Witness for the amended C5 at `s5` (`NODE_RANK='1'`,
`GROUP_RANK='2'`): the exported node rank is '2' and the master's local
rank is '0'. -/
theorem C5_node_rank_amended_witness :
    ∃ s₁, ddp_script_mode_setup absEx "500" s5 = Except.ok s₁ ∧
      s₁.env "NODE_RANK" = Option.some "2" ∧
      s₁.env "LOCAL_RANK" = Option.some "0" := by
  refine ⟨_, rfl, ?_, ?_⟩
  · exact (C5_node_rank_amended absEx "500" s5 _ rfl).1.trans (by rfl)
  · exact (C5_node_rank_amended absEx "500" s5 _ rfl).2

/-- Claim C6 (counterexample): in SLURM mode with `SLURM_LOCALID`
absent, rank resolution raises a plain `KeyError`, not the configuration
error the claim requires. -/
theorem C6_slurm_counterexample :
    DDPBackend.slurm_setup emptyEnv = Except.error (PyError.keyError "SLURM_LOCALID") ∧
    isMisconfigurationError (DDPBackend.slurm_setup emptyEnv) = false ∧
    isMisconfigurationError (DDP2Backend.resolve_task_idx true emptyEnv) = false := by
  exact ⟨rfl, rfl, rfl⟩

/-- Claim C6 as amended: a missing `SLURM_LOCALID` raises a generic
`KeyError` in both backends' SLURM branches; `DDPBackend`'s elastic
setup likewise raises a generic `KeyError` for a missing `LOCAL_RANK`
and a generic `ValueError` for a non-numeric one; only `DDP2Backend`'s
non-SLURM branch raises the configuration error naming WORLD_SIZE,
LOCAL_RANK and GROUP_RANK when `LOCAL_RANK` is absent or non-numeric. -/
theorem C6_rank_resolution_amended :
    (∀ env : EnvMap, env "SLURM_LOCALID" = Option.none →
      DDPBackend.slurm_setup env = Except.error (PyError.keyError "SLURM_LOCALID") ∧
      DDP2Backend.resolve_task_idx true env =
        Except.error (PyError.keyError "SLURM_LOCALID"))
    ∧ (∀ env : EnvMap, env "LOCAL_RANK" = Option.none →
      DDPBackend.torchelastic_setup env = Except.error (PyError.keyError "LOCAL_RANK") ∧
      DDP2Backend.resolve_task_idx false env =
        Except.error (PyError.misconfiguration ddp2Msg))
    ∧ (∀ (env : EnvMap) (v : String), env "LOCAL_RANK" = Option.some v →
      pyInt? v = Option.none →
      DDPBackend.torchelastic_setup env = Except.error PyError.valueError ∧
      DDP2Backend.resolve_task_idx false env =
        Except.error (PyError.misconfiguration ddp2Msg)) := by
  refine ⟨?_, ?_, ?_⟩
  · intro env henv
    unfold DDPBackend.slurm_setup DDP2Backend.resolve_task_idx
    rw [henv]
    exact ⟨rfl, rfl⟩
  · intro env henv
    unfold DDPBackend.torchelastic_setup DDP2Backend.resolve_task_idx
    rw [henv]
    exact ⟨rfl, rfl⟩
  · intro env v henv hv
    constructor
    · unfold DDPBackend.torchelastic_setup
      rw [henv]
      simp only [hv]
    · unfold DDP2Backend.resolve_task_idx
      rw [if_neg (by simp), henv]
      simp only [hv]

/-- Witness for the amended C6: the empty environment yields the
`KeyError`s, and `LOCAL_RANK='abc'` yields the `ValueError` in the
per-device elastic setup and the configuration error in the whole-node
elastic branch. -/
theorem C6_rank_resolution_amended_witness :
    (DDPBackend.slurm_setup emptyEnv = Except.error (PyError.keyError "SLURM_LOCALID") ∧
      DDP2Backend.resolve_task_idx true emptyEnv =
        Except.error (PyError.keyError "SLURM_LOCALID"))
    ∧ (DDPBackend.torchelastic_setup emptyEnv =
        Except.error (PyError.keyError "LOCAL_RANK") ∧
      DDP2Backend.resolve_task_idx false emptyEnv =
        Except.error (PyError.misconfiguration ddp2Msg))
    ∧ (DDPBackend.torchelastic_setup envAbc = Except.error PyError.valueError ∧
      DDP2Backend.resolve_task_idx false envAbc =
        Except.error (PyError.misconfiguration ddp2Msg)) := by
  refine ⟨?_, ?_, ?_⟩
  · exact C6_rank_resolution_amended.1 emptyEnv rfl
  · exact C6_rank_resolution_amended.2.1 emptyEnv rfl
  · exact C6_rank_resolution_amended.2.2 envAbc "abc" rfl (by decide)

/-- Claim C7: after one successful script-mode spawn invocation, a
second invocation in the same process fails with the re-entrant spawn
error (so spawns nothing and resets nothing), leaving exactly the one
set of N-1 child records from the first invocation. -/
theorem C7_reentrant_spawn_guard (ap : String → String) (fp : String)
    (s s₁ : ScriptState) (h : ddp_script_mode_setup ap fp s = Except.ok s₁) :
    ddp_script_mode_setup ap fp s₁ = Except.error PyError.reentrantSpawn ∧
    s₁.procs.length = s.num_processes - 1 := by
  unfold ddp_script_mode_setup at h
  split at h
  · exact absurd h (by simp)
  · rename_i hrank0
    split at h
    · exact absurd h (by simp)
    · split at h
      · exact absurd h (by simp)
      · simp only [Except.ok.injEq] at h
        subst h
        constructor
        · unfold ddp_script_mode_setup
          rw [if_neg (by simpa using hrank0), if_pos rfl]
        · simp [List.length_map, List.length_range']

/-- Witness for C7 at `s8` (three requested processes): the first
invocation succeeds with two child records; the second raises the
re-entrant spawn error. -/
theorem C7_reentrant_spawn_guard_witness :
    ∃ s₁, ddp_script_mode_setup absEx "500" s8 = Except.ok s₁ ∧
      ddp_script_mode_setup absEx "500" s₁ = Except.error PyError.reentrantSpawn ∧
      s₁.procs.length = 2 := by
  refine ⟨_, rfl, ?_, ?_⟩
  · exact (C7_reentrant_spawn_guard absEx "500" s8 _ rfl).1
  · exact (C7_reentrant_spawn_guard absEx "500" s8 _ rfl).2

/-- Claim C8: a successful script-mode spawn invocation produces exactly
N-1 child records; child i carries `LOCAL_RANK = 1 + i`, an environment
otherwise identical to the parent's exported environment, and the
command line interpreter :: absolute-script-path :: original arguments;
the master's own task index is fixed to 0. -/
theorem C8_spawned_children (ap : String → String) (fp : String)
    (s s₁ : ScriptState) (a : String) (rest : List String)
    (hargv : s.argv = a :: rest)
    (h : ddp_script_mode_setup ap fp s = Except.ok s₁) :
    s₁.procs.length = s.num_processes - 1 ∧
    s₁.task_idx = Option.some 0 ∧
    (∀ i p, s₁.procs[i]? = Option.some p →
      p.env "LOCAL_RANK" = Option.some (toString (1 + i)) ∧
      (∀ k, k ≠ "LOCAL_RANK" → p.env k = s₁.env k) ∧
      p.command = s.executable :: ap a :: rest) := by
  unfold ddp_script_mode_setup at h
  split at h
  · exact absurd h (by simp)
  · split at h
    · exact absurd h (by simp)
    · split at h
      · exact absurd h (by simp)
      · rename_i a' rest' hargv'
        rw [hargv] at hargv'
        injection hargv' with h1 h2
        subst h1
        subst h2
        simp only [Except.ok.injEq] at h
        subst h
        refine ⟨?_, rfl, ?_⟩
        · simp [List.length_map, List.length_range']
        · intro i p hp
          simp only [List.getElem?_map] at hp
          rcases hrng : (List.range' 1 (s.num_processes - 1))[i]? with _ | j
          · rw [hrng] at hp
            exact absurd hp (by simp)
          · rw [hrng] at hp
            simp only [Option.map_some', Option.some.injEq] at hp
            have hi : i < s.num_processes - 1 := by
              by_contra hge
              rw [List.getElem?_eq_none (by simpa [List.length_range'] using hge)] at hrng
              exact absurd hrng (by simp)
            have hj : j = 1 + i := by
              rw [List.getElem?_range' 1 1 hi] at hrng
              simpa [Nat.one_mul] using (Option.some.inj hrng).symm
            subst hj
            subst hp
            refine ⟨?_, ?_, rfl⟩
            · simp [envSet, Nat.one_mul]
            · intro k hk
              simp [envSet, hk]

/-- Witness for C8 at `s8` (N = 3, argv = ["train.py", "--lr"]): two
children, local ranks 1 and 2, identical command lines, master task
index 0. -/
theorem C8_spawned_children_witness :
    ∃ s₁, ddp_script_mode_setup absEx "500" s8 = Except.ok s₁ ∧
      (s₁.procs.length = 2 ∧
       s₁.task_idx = Option.some 0 ∧
       (∀ i p, s₁.procs[i]? = Option.some p →
         p.env "LOCAL_RANK" = Option.some (toString (1 + i)) ∧
         (∀ k, k ≠ "LOCAL_RANK" → p.env k = s₁.env k) ∧
         p.command = "python" :: absEx "train.py" :: ["--lr"])) := by
  exact ⟨_, rfl, C8_spawned_children absEx "500" s8 _ "train.py" ["--lr"] rfl rfl⟩
